import Mathlib

/-!
Verification of the chess-ws-go repository core: the matchmaking queue,
the per-session game state machine (GameService), the websocket protocol
handlers (WebSocketHandler), and the Elo rating computation.

The Go maps are embedded as association lists with first-match lookup and
in-place update. The external chess library (the rules oracle) is embedded
as an abstract, executable Oracle record: positions are strings, applying a
move either yields the new position string or an error message, and the
oracle reports the side to move and the position-implied outcome. A
ChessGame pairs a position with the outcome forced by Resign or Draw calls.
Go float64 clock values are embedded as rationals; the claims only copy and
compare them. Go error values are embedded as an inductive GameError whose
constructors carry the exact source message strings.
-/

namespace ChessWs

/-- First-match lookup in an association list, mirroring a Go map read. -/
def lookupKV {α : Type} (l : List (String × α)) (k : String) : Option α :=
  match l with
  | [] => none
  | (k', v) :: t => if k' = k then some v else lookupKV t k

/-- In-place update or append, mirroring a Go map assignment. -/
def setKV {α : Type} (l : List (String × α)) (k : String) (v : α) : List (String × α) :=
  match l with
  | [] => [(k, v)]
  | (k', v') :: t => if k' = k then (k, v) :: t else (k', v') :: setKV t k v

theorem lookupKV_setKV_self {α : Type} (l : List (String × α)) (k : String) (v : α) :
    lookupKV (setKV l k v) k = some v := by
  induction l with
  | nil => simp [lookupKV, setKV]
  | cons hd t ih =>
    obtain ⟨k', v'⟩ := hd
    by_cases hk : k' = k
    · simp [lookupKV, setKV, hk]
    · simp [lookupKV, setKV, hk, ih]

theorem lookupKV_setKV_ne {α : Type} (l : List (String × α)) (k k' : String) (v : α)
    (h : k' ≠ k) : lookupKV (setKV l k v) k' = lookupKV l k' := by
  induction l with
  | nil => simp [lookupKV, setKV, Ne.symm h]
  | cons hd t ih =>
    obtain ⟨k₀, v₀⟩ := hd
    by_cases hk : k₀ = k
    · subst hk
      have hne : ¬ (k₀ = k') := fun hh => h hh.symm
      simp [lookupKV, setKV, hne]
    · by_cases hk' : k₀ = k'
      · subst hk'
        simp [lookupKV, setKV, hk]
      · simp [lookupKV, setKV, hk, hk', ih]

theorem setKV_of_lookup_none {α : Type} (l : List (String × α)) (k : String) (v : α)
    (h : lookupKV l k = none) : setKV l k v = l ++ [(k, v)] := by
  induction l with
  | nil => simp [setKV]
  | cons hd t ih =>
    obtain ⟨k₀, v₀⟩ := hd
    by_cases hk : k₀ = k
    · simp [lookupKV, hk] at h
    · simp [lookupKV, hk] at h
      simp [setKV, hk, ih h]

/-- Chess color, from the chess library. The Go flip chess.Color(1 - int(c))
relies on White = 0 and Black = 1 and is embedded as the match below. -/
inductive Color
  | white
  | black
deriving DecidableEq, Repr

/-- The turn flip chess.Color(1 - int(c)) from MakeMove and handleMove. -/
def Color.flip : Color → Color
  | .white => .black
  | .black => .white

/-- Game outcome, from the chess library (chess.Outcome). -/
inductive Outcome
  | noOutcome
  | whiteWon
  | blackWon
  | draw
deriving DecidableEq, Repr

/-- The rules oracle: the external chess library operations the repository
calls. applyMove embeds game.PushMove on a given position (new position or
error message), turnOf embeds Position().Turn(), outcomeOf the outcome the
library derives from the position itself (checkmate, stalemate, ...). -/
structure Oracle where
  applyMove : String → String → Except String String
  turnOf : String → Color
  outcomeOf : String → Outcome

/-- A chess.Game value: its current position plus the outcome forced by an
explicit Resign or Draw call (noOutcome when none was made). -/
structure ChessGame where
  position : String
  declared : Outcome
deriving DecidableEq, Repr

/-- The standard starting position, chess.NewGame(). -/
def startPos : String :=
  "rnbqkbnr/pppppppp/8/8/8/8/PPPPPPPP/RNBQKBNR w KQkq - 0 1"

/-- Fresh game, chess.NewGame(). -/
def ChessGame.new : ChessGame := ⟨startPos, .noOutcome⟩

/-- game.Outcome(): the forced outcome when one was declared, otherwise the
outcome the library reads off the position. -/
def ChessGame.outcome (o : Oracle) (g : ChessGame) : Outcome :=
  if g.declared ≠ .noOutcome then g.declared else o.outcomeOf g.position

/-- game.Resign(color): the opponent of the resigning color wins. -/
def ChessGame.resign (g : ChessGame) (c : Color) : ChessGame :=
  match c with
  | .white => { g with declared := .blackWon }
  | .black => { g with declared := .whiteWon }

/-- game.Draw(chess.DrawOffer). -/
def ChessGame.agreeDraw (g : ChessGame) : ChessGame :=
  { g with declared := .draw }

/-- services.ChatMessage. -/
structure ChatMessage where
  sender : String
  message : String
deriving DecidableEq, Repr

/-- services.GameState. The nested TimeControl struct is flattened into the
two float64 fields it holds, embedded as rationals. -/
structure GameState where
  whitePlayer : String
  blackPlayer : String
  currentTurn : Color
  drawOffered : Bool
  whiteTimeLeft : Rat
  blackTimeLeft : Rat
  chatHistory : List ChatMessage
deriving DecidableEq, Repr

/-- Error values produced by GameService methods; each constructor carries
the exact fmt.Errorf message of the source. -/
inductive GameError
  | gameNotFound
  | gameStateNotFound
  | notYourTurn
  | invalidMove (msg : String)
  | noDrawOffered
deriving DecidableEq, Repr

/-- err.Error() for the GameService errors. -/
def GameError.message : GameError → String
  | .gameNotFound => "game not found"
  | .gameStateNotFound => "game state not found"
  | .notYourTurn => "not your turn"
  | .invalidMove msg => "invalid move: " ++ msg
  | .noDrawOffered => "no draw was offered"

/-- services.GameService: two maps keyed by game id. The single sync.Mutex
field guards the whole service; the lock structure is modelled separately
(see LockId below). -/
structure GameService where
  games : List (String × ChessGame)
  gameStates : List (String × GameState)
deriving DecidableEq, Repr

namespace GameService

/-- GameService.CreateGame with the generated uuid passed in explicitly. -/
def createGame (s : GameService) (gameID whitePlayer blackPlayer : String) : GameService :=
  { games := setKV s.games gameID ChessGame.new,
    gameStates := setKV s.gameStates gameID
      ⟨whitePlayer, blackPlayer, .white, false, 600, 600, []⟩ }

/-- GameService.MakeMove: turn check against the position, oracle move
application, turn flip and draw-offer reset. The rating update the source
triggers afterwards only touches the external account store, never the
GameService maps, so it does not appear in the state transition. -/
def makeMove (o : Oracle) (s : GameService) (gameID moveStr : String) :
    Except GameError GameService :=
  match lookupKV s.games gameID with
  | none => .error .gameNotFound
  | some game =>
    match lookupKV s.gameStates gameID with
    | none => .error .gameStateNotFound
    | some st =>
      if o.turnOf game.position ≠ st.currentTurn then .error .notYourTurn
      else
        match o.applyMove game.position moveStr with
        | .error e => .error (.invalidMove e)
        | .ok newPos =>
          let st' := { st with currentTurn := st.currentTurn.flip, drawOffered := false }
          .ok { games := setKV s.games gameID ({ game with position := newPos }),
                gameStates := setKV s.gameStates gameID st' }

/-- GameService.ResignGame (state transition part). -/
def resignGame (s : GameService) (gameID : String) (color : Color) :
    Except GameError GameService :=
  match lookupKV s.games gameID with
  | none => .error .gameNotFound
  | some game =>
    .ok { s with games := setKV s.games gameID (game.resign color) }

/-- GameService.OfferDraw: sets the flag unconditionally. -/
def offerDraw (s : GameService) (gameID : String) : Except GameError GameService :=
  match lookupKV s.gameStates gameID with
  | none => .error .gameStateNotFound
  | some st =>
    .ok { s with gameStates := setKV s.gameStates gameID ({ st with drawOffered := true }) }

/-- GameService.AcceptDraw: requires a pending offer, then declares a draw
on the game. The DrawOffered flag is not cleared by the source. -/
def acceptDraw (s : GameService) (gameID : String) : Except GameError GameService :=
  match lookupKV s.games gameID with
  | none => .error .gameNotFound
  | some game =>
    match lookupKV s.gameStates gameID with
    | none => .error .gameStateNotFound
    | some st =>
      if ¬ st.drawOffered then .error .noDrawOffered
      else .ok { s with games := setKV s.games gameID game.agreeDraw }

/-- GameService.DeclineDraw: clears the flag, with no pending-offer check. -/
def declineDraw (s : GameService) (gameID : String) : Except GameError GameService :=
  match lookupKV s.gameStates gameID with
  | none => .error .gameStateNotFound
  | some st =>
    .ok { s with gameStates := setKV s.gameStates gameID ({ st with drawOffered := false }) }

/-- The branch on color inside GameService.UpdateTime. -/
def setTime (st : GameState) (color : Color) (timeLeft : Rat) : GameState :=
  match color with
  | .white => { st with whiteTimeLeft := timeLeft }
  | .black => { st with blackTimeLeft := timeLeft }

/-- GameService.UpdateTime: unconditional overwrite of one clock. -/
def updateTime (s : GameService) (gameID : String) (color : Color) (timeLeft : Rat) :
    Except GameError GameService :=
  match lookupKV s.gameStates gameID with
  | none => .error .gameStateNotFound
  | some st =>
    .ok { s with gameStates := setKV s.gameStates gameID (setTime st color timeLeft) }

/-- GameService.AddChatMessage: unbounded append. -/
def addChatMessage (s : GameService) (gameID sender message : String) :
    Except GameError GameService :=
  match lookupKV s.gameStates gameID with
  | none => .error .gameStateNotFound
  | some st =>
    let st' := { st with chatHistory := st.chatHistory ++ [⟨sender, message⟩] }
    .ok { s with gameStates := setKV s.gameStates gameID st' }

/-- GameService.IsGameOver (the method string is not modelled). -/
def isGameOver (o : Oracle) (s : GameService) (gameID : String) :
    Except GameError (Bool × Outcome) :=
  match lookupKV s.games gameID with
  | none => .error .gameNotFound
  | some game => .ok (ChessGame.outcome o game ≠ .noOutcome, ChessGame.outcome o game)

/-- Repeated MakeMove with the same game id, for the turn alternation
property over sequences of accepted moves. -/
def makeMoves (o : Oracle) (s : GameService) (gameID : String) :
    List String → Except GameError GameService
  | [] => .ok s
  | m :: ms =>
    match makeMove o s gameID m with
    | .error e => .error e
    | .ok s' => makeMoves o s' gameID ms

end GameService

/-- handlers.Player. Connection handles are opaque socket identities,
embedded as natural numbers. -/
structure Player where
  conn : Nat
  color : Color
  username : String
  userID : String
deriving DecidableEq, Repr

/-- handlers.GameSession: the per-match state the websocket handler keeps
(distinct from the GameState kept by the GameService). -/
structure HSession where
  white : Player
  black : Player
  game : ChessGame
  currentTurn : Color
deriving DecidableEq, Repr

/-- Outbound protocol messages written by the handlers. Fields mirror the
JSON payload fields of the source message structs; chess colors are kept as
colors rather than rendered strings, and the gameOver method string is not
modelled. -/
inductive OutMsg
  | waiting
  | gameStart (gameId : String) (color : Color) (opponent : String)
  | moveMsg (move : String) (position : String) (turn : Color)
  | gameOver (outcome : Outcome) (winner : String)
  | drawOffer (offeredBy : Color)
  | drawResponse (accepted : Bool)
  | timeUpdate (color : Color) (timeLeft : Rat)
  | chat (sender : String) (message : String)
  | gameState (position : String) (turn : Color) (whitePlayer blackPlayer : String)
      (whiteTime blackTime : Rat)
  | errorMsg (message : String)
  | pong
deriving DecidableEq, Repr

/-- One outbound write: the target connection and the message. -/
abbrev Send := Nat × OutMsg

/-- handlers.WebSocketHandler: the session map, the connection registry, the
single waiting player slot, and the owned GameService. The single
sync.Mutex field guards the whole handler; the lock structure is modelled
separately (see LockId below). -/
structure Handler where
  sessions : List (String × HSession)
  connections : List Nat
  waitingPlayer : Option Player
  gameService : GameService
deriving DecidableEq, Repr

/-- A handler with no sessions, no connections and an empty slot. -/
def Handler.empty : Handler := ⟨[], [], none, ⟨[], []⟩⟩

/-- handleJoinGame. The generated uuid for the pairing branch is passed in
as freshID. Empty slot: store the arrival as the waiting player, colored
White, and answer waiting. Occupied slot: clear the slot, create one new
session with the waiting entry as White, the arrival as Black, a fresh
game, currentTurn White, and send gameStart to both. -/
def handleJoinGame (h : Handler) (conn : Nat) (username userID freshID : String) :
    Handler × List Send :=
  match h.waitingPlayer with
  | none =>
    let newPlayer : Player := ⟨conn, .white, username, userID⟩
    ({ h with waitingPlayer := some newPlayer }, [(conn, .waiting)])
  | some w =>
    let newPlayer : Player := ⟨conn, .black, username, userID⟩
    let session : HSession := ⟨w, newPlayer, ChessGame.new, .white⟩
    ({ h with sessions := setKV h.sessions freshID session, waitingPlayer := none },
     [(w.conn, .gameStart freshID .white newPlayer.username),
      (newPlayer.conn, .gameStart freshID .black w.username)])

/-- The if chain in handleMove, handleResign, handleDrawOffer and
handleTimeUpdate that derives the acting color from the sending
connection. -/
def HSession.playerColor (s : HSession) (conn : Nat) : Option Color :=
  if conn = s.white.conn then some .white
  else if conn = s.black.conn then some .black
  else none

/-- The determineWinner helper of the websocket handler. -/
def determineWinner : Outcome → String
  | .whiteWon => "white"
  | .blackWon => "black"
  | .draw => "draw"
  | .noOutcome => "unknown"

/-- The gameOver broadcast of handleGameOver, sent to both players. -/
def gameOverSends (s : HSession) (out : Outcome) : List Send :=
  [(s.white.conn, .gameOver out (determineWinner out)),
   (s.black.conn, .gameOver out (determineWinner out))]

/-- handleMove without the error wrapper of the read loop: session lookup,
acting color from the connection, turn check against the session turn,
oracle move application, turn flip, move broadcast to both, then the
gameOver broadcast when the resulting position is terminal. -/
def handleMoveE (o : Oracle) (h : Handler) (conn : Nat) (moveStr gameID : String) :
    Except String (Handler × List Send) :=
  match lookupKV h.sessions gameID with
  | none => .error "game session not found"
  | some sess =>
    match sess.playerColor conn with
    | none => .error "player not in this game"
    | some c =>
      if c ≠ sess.currentTurn then .error "not your turn"
      else
        match o.applyMove sess.game.position moveStr with
        | .error e => .error ("invalid move: " ++ e)
        | .ok newPos =>
          let sess' : HSession :=
            { sess with game := { sess.game with position := newPos },
                        currentTurn := sess.currentTurn.flip }
          let base : List Send :=
            [(sess'.white.conn, .moveMsg moveStr newPos sess'.currentTurn),
             (sess'.black.conn, .moveMsg moveStr newPos sess'.currentTurn)]
          let out := ChessGame.outcome o sess'.game
          let over := if out ≠ .noOutcome then gameOverSends sess' out else []
          .ok ({ h with sessions := setKV h.sessions gameID sess' }, base ++ over)

/-- The move branch of the read loop: a handleMove error is sent back to
the sender only, with the handler state untouched. -/
def dispatchMove (o : Oracle) (h : Handler) (conn : Nat) (moveStr gameID : String) :
    Handler × List Send :=
  match handleMoveE o h conn moveStr gameID with
  | .error e => (h, [(conn, .errorMsg e)])
  | .ok r => r

/-- The second half of handleReconnect after the binding was replaced:
GetGame and GetGameState on the game service, then the gameState snapshot
to the sender; a service miss turns into an error to the sender. -/
def reconnectSnapshot (o : Oracle) (h : Handler) (conn : Nat) (gameID : String) :
    Handler × List Send :=
  match lookupKV h.gameService.games gameID with
  | none => (h, [(conn, .errorMsg "game not found")])
  | some game =>
    match lookupKV h.gameService.gameStates gameID with
    | none => (h, [(conn, .errorMsg "game state not found")])
    | some st =>
      (h, [(conn, .gameState game.position (o.turnOf game.position)
              st.whitePlayer st.blackPlayer st.whiteTimeLeft st.blackTimeLeft)])

/-- handleReconnect: username match against the White then Black binding,
in-place replacement of the matching binding connection handle, then the
snapshot phase. The userID argument is unused by the source. -/
def handleReconnect (o : Oracle) (h : Handler) (conn : Nat)
    (gameID username userID : String) : Handler × List Send :=
  match lookupKV h.sessions gameID with
  | none => (h, [(conn, .errorMsg "Game not found")])
  | some sess =>
    if sess.white.username = username then
      let sess' := { sess with white := { sess.white with conn := conn } }
      reconnectSnapshot o ({ h with sessions := setKV h.sessions gameID sess' }) conn gameID
    else if sess.black.username = username then
      let sess' := { sess with black := { sess.black with conn := conn } }
      reconnectSnapshot o ({ h with sessions := setKV h.sessions gameID sess' }) conn gameID
    else (h, [(conn, .errorMsg "Player not in this game")])

/-- handleChat: session lookup, AddChatMessage on the game service with the
authenticated username as sender, then the chat broadcast to both
players. -/
def handleChat (h : Handler) (conn : Nat) (gameID message username : String) :
    Handler × List Send :=
  match lookupKV h.sessions gameID with
  | none => (h, [(conn, .errorMsg "Game not found")])
  | some sess =>
    match GameService.addChatMessage h.gameService gameID username message with
    | .error e => (h, [(conn, .errorMsg e.message)])
    | .ok svc' =>
      ({ h with gameService := svc' },
       [(sess.white.conn, .chat username message), (sess.black.conn, .chat username message)])

/-- An inbound chat envelope as decoded by the read loop. The source decode
struct has only the gameId and message fields; senderClaim stands for any
identity text carried elsewhere in the payload, which json.Unmarshal drops
because the target struct has no field for it. -/
structure ChatEnvelope where
  gameID : String
  message : String
  senderClaim : String
deriving DecidableEq, Repr

/-- The chat branch of the read loop: handleChat is called with the
authenticated username bound to the connection at upgrade time; the decoded
payload contributes only the game id and the message text. -/
def dispatchChat (h : Handler) (conn : Nat) (username : String) (env : ChatEnvelope) :
    Handler × List Send :=
  handleChat h conn env.gameID env.message username

/-! Concrete fixtures for witnesses. -/

/-- A small concrete rules oracle: from the start position the move e4 is
legal and yields position P2 with Black to move; from P2 the move e5 yields
P3 with White to move; everything else is rejected. -/
def testOracle : Oracle :=
  { applyMove := fun p m =>
      if p = startPos ∧ m = "e4" then .ok "P2"
      else if p = "P2" ∧ m = "e5" then .ok "P3"
      else .error "illegal move",
    turnOf := fun p => if p = "P2" then .black else .white,
    outcomeOf := fun _ => .noOutcome }

/-- A game service holding one fresh game g1 between alice and bob. -/
def svc0 : GameService := GameService.createGame ⟨[], []⟩ "g1" "alice" "bob"

/-- The game state created by createGame for g1. -/
def st0 : GameState := ⟨"alice", "bob", .white, false, 600, 600, []⟩

/-- The white player fixture. -/
def aliceP : Player := ⟨1, .white, "alice", "u1"⟩

/-- The black player fixture. -/
def bobP : Player := ⟨2, .black, "bob", "u2"⟩

/-- A handler session for g1 at the starting position, White to move. -/
def sess0 : HSession := ⟨aliceP, bobP, ChessGame.new, .white⟩

/-- A handler holding session g1 and the matching service entries. -/
def h0 : Handler := ⟨[("g1", sess0)], [1, 2], none, svc0⟩

/-! Helper lemmas. -/

/-- Characterization of a successful MakeMove call. -/
theorem makeMove_ok_iff (o : Oracle) (s : GameService) (gid m : String) (s' : GameService) :
    GameService.makeMove o s gid m = .ok s' ↔
    ∃ game st newPos,
      lookupKV s.games gid = some game ∧ lookupKV s.gameStates gid = some st ∧
      o.turnOf game.position = st.currentTurn ∧
      o.applyMove game.position m = .ok newPos ∧
      s' = { games := setKV s.games gid ({ game with position := newPos }),
             gameStates := setKV s.gameStates gid
               ({ st with currentTurn := st.currentTurn.flip, drawOffered := false }) } := by
  constructor
  · intro hmk
    unfold GameService.makeMove at hmk
    split at hmk
    · exact absurd hmk (by simp)
    · rename_i game hg
      split at hmk
      · exact absurd hmk (by simp)
      · rename_i st hst
        split at hmk
        · exact absurd hmk (by simp)
        · rename_i ht
          split at hmk
          · exact absurd hmk (by simp)
          · rename_i newPos ha
            refine ⟨game, st, newPos, hg, hst, not_not.mp ht, ha, ?_⟩
            exact (Except.ok.inj hmk).symm
  · rintro ⟨game, st, newPos, hg, hst, ht, ha, rfl⟩
    simp [GameService.makeMove, hg, hst, ht, ha]

/-- Iterated turn flip. -/
def Color.flipN : Nat → Color → Color
  | 0, c => c
  | n + 1, c => (Color.flipN n c).flip

theorem Color.flipN_flip (n : Nat) (c : Color) :
    Color.flipN n c.flip = (Color.flipN n c).flip := by
  induction n with
  | zero => rfl
  | succ n ih => simp [Color.flipN, ih]

/-- Turn evolution across a sequence of accepted moves. -/
theorem makeMoves_turn (o : Oracle) (gid : String) :
    ∀ (ms : List String) (s s' : GameService) (st st' : GameState),
      GameService.makeMoves o s gid ms = .ok s' →
      lookupKV s.gameStates gid = some st →
      lookupKV s'.gameStates gid = some st' →
      st'.currentTurn = Color.flipN ms.length st.currentTurn := by
  intro ms
  induction ms with
  | nil =>
    intro s s' st st' hmk hst hst'
    simp only [GameService.makeMoves] at hmk
    cases hmk
    rw [hst] at hst'
    cases hst'
    rfl
  | cons m ms ih =>
    intro s s' st st' hmk hst hst'
    simp only [GameService.makeMoves] at hmk
    cases hone : GameService.makeMove o s gid m with
    | error e => rw [hone] at hmk; exact absurd hmk (by simp)
    | ok s₁ =>
      rw [hone] at hmk
      simp only [] at hmk
      obtain ⟨game, stx, newPos, hg, hstx, ht, ha, rfl⟩ := (makeMove_ok_iff o s gid m s₁).mp hone
      rw [hst] at hstx
      cases hstx
      have h2 := ih _ s' _ st' hmk (lookupKV_setKV_self s.gameStates gid _) hst'
      simp only [List.length_cons, Color.flipN]
      rw [h2, Color.flipN_flip]

/-! Claim theorems. -/

/-- C1: matchmaking join. The waiting slot is the single nilable
waitingPlayer field, so at most one caller is ever waiting. A join on an
empty slot stores the caller as the waiting player colored White and
answers waiting; a join on an occupied slot clears the slot, creates
exactly one new session (the fresh uuid is not yet a key) with the waiting
entry as White, the arrival as Black and currentTurn White, and sends
gameStart with the game id, each receiver color and the opponent name to
both players. -/
theorem join_matchmaking_correct (h : Handler) (conn : Nat) (username userID freshID : String) :
    (h.waitingPlayer = none →
      handleJoinGame h conn username userID freshID =
        ({ h with waitingPlayer := some ⟨conn, Color.white, username, userID⟩ },
         [(conn, OutMsg.waiting)])) ∧
    (∀ w : Player, h.waitingPlayer = some w → lookupKV h.sessions freshID = none →
      handleJoinGame h conn username userID freshID =
        ({ h with
            sessions := h.sessions ++
              [(freshID, ⟨w, ⟨conn, Color.black, username, userID⟩, ChessGame.new, Color.white⟩)],
            waitingPlayer := none },
         [(w.conn, OutMsg.gameStart freshID Color.white username),
          (conn, OutMsg.gameStart freshID Color.black w.username)])) := by
  constructor
  · intro hw
    simp [handleJoinGame, hw]
  · intro w hw hfresh
    simp [handleJoinGame, hw, setKV_of_lookup_none h.sessions freshID _ hfresh]

/-- Witness for C1: alice joins an empty handler and waits as White; bob
joins next and the pair becomes one session with alice as White, bob as
Black and White to move, both receiving gameStart. -/
theorem join_matchmaking_correct_witness :
    handleJoinGame Handler.empty 1 "alice" "u1" "g1" =
      ({ Handler.empty with waitingPlayer := some ⟨1, Color.white, "alice", "u1"⟩ },
       [(1, OutMsg.waiting)]) ∧
    handleJoinGame
        ({ Handler.empty with waitingPlayer := some ⟨1, Color.white, "alice", "u1"⟩ })
        2 "bob" "u2" "g1" =
      ({ Handler.empty with
          sessions := [("g1", ⟨⟨1, Color.white, "alice", "u1"⟩, ⟨2, Color.black, "bob", "u2"⟩,
            ChessGame.new, Color.white⟩)],
          waitingPlayer := none },
       [(1, OutMsg.gameStart "g1" Color.white "bob"),
        (2, OutMsg.gameStart "g1" Color.black "alice")]) :=
  ⟨(join_matchmaking_correct Handler.empty 1 "alice" "u1" "g1").1 rfl,
   (join_matchmaking_correct
      ({ Handler.empty with waitingPlayer := some ⟨1, Color.white, "alice", "u1"⟩ })
      2 "bob" "u2" "g1").2 ⟨1, Color.white, "alice", "u1"⟩ rfl rfl⟩

/-- C2: a move by the color that is not the session current turn is
answered with the not-your-turn error sent to the sender only, and the
whole handler state, including every session position and turn and the
whole game service with its clocks and draw flags, is returned exactly as
it was. -/
theorem move_out_of_turn_rejected (o : Oracle) (h : Handler) (conn : Nat)
    (moveStr gameID : String) (sess : HSession) (c : Color)
    (hs : lookupKV h.sessions gameID = some sess)
    (hc : sess.playerColor conn = some c)
    (ht : c ≠ sess.currentTurn) :
    dispatchMove o h conn moveStr gameID = (h, [(conn, OutMsg.errorMsg "not your turn")]) := by
  simp [dispatchMove, handleMoveE, hs, hc, ht]

/-- Witness for C2: bob (Black, connection 2) tries to move first in the
fresh game g1 where White is to move. -/
theorem move_out_of_turn_rejected_witness :
    dispatchMove testOracle h0 2 "e5" "g1" = (h0, [(2, OutMsg.errorMsg "not your turn")]) :=
  move_out_of_turn_rejected testOracle h0 2 "e5" "g1" sess0 Color.black rfl rfl (by decide)

/-- C3: a move accepted by the rules oracle flips the stored currentTurn to
the other color and clears the drawOffered flag (everything else in the
game state frame is kept), and over any sequence of accepted moves the
stored turn is the starting turn flipped once per move, alternating
strictly. -/
theorem accepted_move_flips_turn_clears_draw (o : Oracle) (gid : String) :
    (∀ (s s' : GameService) (m : String) (st : GameState),
      GameService.makeMove o s gid m = .ok s' →
      lookupKV s.gameStates gid = some st →
      lookupKV s'.gameStates gid =
        some ({ st with currentTurn := st.currentTurn.flip, drawOffered := false })) ∧
    (∀ (ms : List String) (s s' : GameService) (st st' : GameState),
      GameService.makeMoves o s gid ms = .ok s' →
      lookupKV s.gameStates gid = some st →
      lookupKV s'.gameStates gid = some st' →
      st'.currentTurn = Color.flipN ms.length st.currentTurn) := by
  constructor
  · intro s s' m st hmk hst
    obtain ⟨game, stx, newPos, hg, hstx, ht, ha, rfl⟩ := (makeMove_ok_iff o s gid m s').mp hmk
    rw [hst] at hstx
    cases hstx
    exact lookupKV_setKV_self s.gameStates gid _
  · exact fun ms s s' st st' => makeMoves_turn o gid ms s s' st st'

/-- Definitions used by the C3 witness: the service after e4, and after the
sequence e4 then e5, on the fresh game g1. -/
def svc1 : GameService :=
  (GameService.makeMove testOracle svc0 "g1" "e4").toOption.getD ⟨[], []⟩

def svc2 : GameService :=
  (GameService.makeMoves testOracle svc0 "g1" ["e4", "e5"]).toOption.getD ⟨[], []⟩

def st2 : GameState := (lookupKV svc2.gameStates "g1").getD st0

/-- Witness for C3: after the accepted move e4 on the fresh game g1 the
stored state is the original with the turn flipped to Black and the draw
flag cleared; after the accepted sequence e4, e5 the turn is White again,
two flips from the start. -/
theorem accepted_move_flips_turn_clears_draw_witness :
    lookupKV svc1.gameStates "g1" =
      some ({ st0 with currentTurn := st0.currentTurn.flip, drawOffered := false }) ∧
    st2.currentTurn = Color.flipN 2 st0.currentTurn :=
  ⟨(accepted_move_flips_turn_clears_draw testOracle "g1").1 svc0 svc1 "e4" st0 rfl rfl,
   (accepted_move_flips_turn_clears_draw testOracle "g1").2 ["e4", "e5"] svc0 svc2 st0 st2
     rfl rfl rfl⟩

/-- The service after a decline response on the fresh game g1. -/
def svc0Declined : GameService :=
  (GameService.declineDraw svc0 "g1").toOption.getD ⟨[], []⟩

/-- C4 counterexample: on the fresh game g1 no draw is pending, yet the
decline response succeeds instead of failing with the no-draw-pending
error, refuting the claim that either response fails in that case. -/
theorem draw_decline_without_offer_succeeds :
    (lookupKV svc0.gameStates "g1").map GameState.drawOffered = some false ∧
    GameService.declineDraw svc0 "g1" = .ok svc0Declined ∧
    GameService.declineDraw svc0 "g1" ≠ .error GameError.noDrawOffered := by
  refine ⟨rfl, rfl, ?_⟩
  rw [show GameService.declineDraw svc0 "g1" = .ok svc0Declined from rfl]
  simp

/-- C4 (amended): only the accept response checks the flag: accept fails
with the no-draw-offered error when no draw is pending, while decline
always succeeds, clearing the flag and changing nothing else; hence after
an offer followed by a decline, an accept without a new offer fails with
the no-draw-offered error. -/
theorem draw_response_protocol (s : GameService) (gid : String) (game : ChessGame)
    (st : GameState) (hg : lookupKV s.games gid = some game)
    (hst : lookupKV s.gameStates gid = some st) :
    (st.drawOffered = false → GameService.acceptDraw s gid = .error .noDrawOffered) ∧
    (GameService.declineDraw s gid =
      .ok { s with gameStates := setKV s.gameStates gid ({ st with drawOffered := false }) }) ∧
    (∀ s₁ s₂ : GameService, GameService.offerDraw s gid = .ok s₁ →
      GameService.declineDraw s₁ gid = .ok s₂ →
      GameService.acceptDraw s₂ gid = .error .noDrawOffered) := by
  refine ⟨?_, ?_, ?_⟩
  · intro hoff
    simp [GameService.acceptDraw, hg, hst, hoff]
  · simp [GameService.declineDraw, hst]
  · intro s₁ s₂ h1 h2
    have e1 : s₁ = { s with gameStates := setKV s.gameStates gid ({ st with drawOffered := true }) } := by
      simp [GameService.offerDraw, hst] at h1
      exact h1.symm
    subst e1
    have hst1 : lookupKV (setKV s.gameStates gid ({ st with drawOffered := true })) gid =
        some ({ st with drawOffered := true }) := lookupKV_setKV_self _ _ _
    have e2 : s₂ = { s with gameStates := setKV (setKV s.gameStates gid ({ st with drawOffered := true })) gid ({ st with drawOffered := false }) } := by
      simp [GameService.declineDraw, hst1] at h2
      exact h2.symm
    subst e2
    have hst2 : lookupKV (setKV (setKV s.gameStates gid ({ st with drawOffered := true })) gid ({ st with drawOffered := false })) gid =
        some ({ st with drawOffered := false }) := lookupKV_setKV_self _ _ _
    simp [GameService.acceptDraw, hg, hst2]

/-- The service after an offer and then a decline on the fresh game g1. -/
def svc0OfferedDeclined : GameService :=
  (GameService.declineDraw
    ((GameService.offerDraw svc0 "g1").toOption.getD ⟨[], []⟩) "g1").toOption.getD ⟨[], []⟩

/-- Witness for C4: on the fresh game g1, accept without a pending offer
fails, decline without a pending offer succeeds clearing the flag, and
accept after offer-then-decline fails again. -/
theorem draw_response_protocol_witness :
    GameService.acceptDraw svc0 "g1" = .error .noDrawOffered ∧
    GameService.declineDraw svc0 "g1" = .ok svc0Declined ∧
    GameService.acceptDraw svc0OfferedDeclined "g1" = .error .noDrawOffered := by
  have h := draw_response_protocol svc0 "g1" ChessGame.new st0 rfl rfl
  exact ⟨h.1 rfl, h.2.1, h.2.2 _ svc0OfferedDeclined rfl rfl⟩

/-- A session already Completed: White won on game g1 (for example by
resignation), with no draw pending. -/
def gameDone : ChessGame := ⟨"PM", .whiteWon⟩

def stDone : GameState := ⟨"alice", "bob", .white, false, 600, 600, []⟩

def svcDone : GameService := ⟨[("g1", gameDone)], [("g1", stDone)]⟩

def svcDoneOffered : GameService :=
  (GameService.offerDraw svcDone "g1").toOption.getD ⟨[], []⟩

def svcDoneChat : GameService :=
  (GameService.addChatMessage svcDone "g1" "alice" "gg").toOption.getD ⟨[], []⟩

/-- C5 counterexample: on a session already Completed (White won), the
offer-draw mutation is still accepted and sets drawOffered to true, so a
mutating operation succeeds after completion and drawOffered holds while
the session is not Active, refuting both parts of the claim. -/
theorem completed_immutability_counterexample :
    (lookupKV svcDone.games "g1").map (ChessGame.outcome testOracle) = some Outcome.whiteWon ∧
    GameService.offerDraw svcDone "g1" = .ok svcDoneOffered ∧
    (lookupKV svcDoneOffered.gameStates "g1").map GameState.drawOffered = some true ∧
    (lookupKV svcDoneOffered.games "g1").map (ChessGame.outcome testOracle) = some Outcome.whiteWon :=
  ⟨rfl, rfl, rfl, rfl⟩

/-- C5 (amended): completion does not gate mutation: on a session whose
game already has an outcome, offerDraw still succeeds and sets drawOffered,
and chat appends still succeed, so drawOffered can be true while the
session is Completed; a subsequent move on such a session fails exactly
when the oracle rejects the move, as in checkmate positions where every
move is rejected. -/
theorem completed_session_mutation (o : Oracle) (s : GameService) (gid : String)
    (game : ChessGame) (st : GameState)
    (hg : lookupKV s.games gid = some game)
    (hst : lookupKV s.gameStates gid = some st)
    (hdone : ChessGame.outcome o game ≠ .noOutcome) :
    (GameService.offerDraw s gid =
      .ok { s with gameStates := setKV s.gameStates gid ({ st with drawOffered := true }) }) ∧
    (∀ sender msg : String, GameService.addChatMessage s gid sender msg =
      .ok { s with gameStates := setKV s.gameStates gid ({ st with chatHistory := st.chatHistory ++ [⟨sender, msg⟩] }) }) ∧
    ((∀ m : String, ∃ e, o.applyMove game.position m = .error e) →
      o.turnOf game.position = st.currentTurn →
      ∀ m : String, ∃ e, GameService.makeMove o s gid m = .error (.invalidMove e)) := by
  refine ⟨?_, ?_, ?_⟩
  · simp [GameService.offerDraw, hst]
  · intro sender msg
    simp [GameService.addChatMessage, hst]
  · intro hrej ht m
    obtain ⟨e, he⟩ := hrej m
    exact ⟨e, by simp [GameService.makeMove, hg, hst, ht, he]⟩

/-- Witness for C5: on the completed game g1 (White already won), offering
a draw and appending chat both succeed, and the move e4 fails only because
the oracle rejects it. -/
theorem completed_session_mutation_witness :
    GameService.offerDraw svcDone "g1" = .ok svcDoneOffered ∧
    GameService.addChatMessage svcDone "g1" "alice" "gg" = .ok svcDoneChat ∧
    (∃ e, GameService.makeMove testOracle svcDone "g1" "e4" = .error (.invalidMove e)) := by
  have h := completed_session_mutation testOracle svcDone "g1" gameDone stDone rfl rfl
    (by decide)
  exact ⟨h.1, h.2.1 "alice" "gg",
    h.2.2 (fun m => ⟨"illegal move", by simp [testOracle, gameDone, startPos]⟩) rfl "e4"⟩

/-- Two joins from a fresh handler: alice on connection 1 and bob on
connection 2, paired into game g1. The join path never registers the game
with the game service. -/
def joinedPair : Handler :=
  (handleJoinGame ((handleJoinGame Handler.empty 1 "alice" "u1" "g1").1) 2 "bob" "u2" "g1").1

/-- The g1 session after alice reconnects on connection 3. -/
def reboundSession : HSession :=
  ⟨⟨3, .white, "alice", "u1"⟩, ⟨2, .black, "bob", "u2"⟩, ChessGame.new, .white⟩

def joinedPairRebound : Handler :=
  { joinedPair with sessions := setKV joinedPair.sessions "g1" reboundSession }

/-- C6: evaluation at the failing input. After alice and bob are paired
into g1 by two join calls, a reconnect by alice on a new connection does
replace the White binding connection handle, but the sender then receives
the error game not found instead of the gameState snapshot, because the
join path never created the game in the game service. -/
theorem reconnect_sends_error_not_gamestate :
    handleReconnect testOracle joinedPair 3 "g1" "alice" "u1" =
      (joinedPairRebound, [(3, OutMsg.errorMsg "game not found")]) ∧
    lookupKV joinedPair.gameService.games "g1" = none :=
  ⟨rfl, rfl⟩

/-- math.Round from the Go standard library: round half away from zero.
Embedded over the reals. -/
noncomputable def goRound (x : ℝ) : ℤ :=
  if x < 0 then -⌊-x + 1 / 2⌋ else ⌊x + 1 / 2⌋

/-- calculateEloChange: fixed kFactor 32, expected score from the rating
difference, rounded change. The float64 arithmetic of the source is
embedded as real arithmetic. -/
noncomputable def calculateEloChange (playerRating opponentRating : ℤ) (outcome : ℝ) : ℤ :=
  goRound (32 * (outcome -
    1 / (1 + (10 : ℝ) ^ ((((opponentRating : ℤ) : ℝ) - ((playerRating : ℤ) : ℝ)) / 400))))

/-- The outcome switch of UpdatePlayerRatings: actual scores 1, 0.5 and 0
for win, draw and loss per color, yielding both deltas; none mirrors the
invalid game outcome error for NoOutcome. -/
noncomputable def ratingDeltas : Outcome → ℤ → ℤ → Option (ℤ × ℤ)
  | .whiteWon, w, b => some (calculateEloChange w b 1, calculateEloChange b w 0)
  | .blackWon, w, b => some (calculateEloChange w b 0, calculateEloChange b w 1)
  | .draw, w, b => some (calculateEloChange w b (1 / 2), calculateEloChange b w (1 / 2))
  | .noOutcome, _, _ => none

/-- C7: with equal starting ratings the expected score is one half, so a
decisive outcome gives the winner the delta round(32 * (1 - 0.5)) = 16 and
the loser -16, exactly opposite; a draw gives both players delta 0. -/
theorem elo_deltas_equal_ratings (r : ℤ) :
    calculateEloChange r r 1 = 16 ∧ calculateEloChange r r 0 = -16 ∧
    ratingDeltas .whiteWon r r = some (16, -16) ∧
    ratingDeltas .blackWon r r = some (-16, 16) ∧
    ratingDeltas .draw r r = some (0, 0) ∧
    calculateEloChange r r 1 = -(calculateEloChange r r 0) := by
  have hexp : (1 : ℝ) / (1 + (10 : ℝ) ^ ((((r : ℤ) : ℝ) - ((r : ℤ) : ℝ)) / 400)) = 1 / 2 := by
    rw [sub_self, zero_div, Real.rpow_zero]
    norm_num
  have h1 : calculateEloChange r r 1 = 16 := by
    rw [calculateEloChange, hexp, goRound]
    rw [if_neg (by norm_num)]
    rw [Int.floor_eq_iff]
    constructor <;> norm_num
  have h0 : calculateEloChange r r 0 = -16 := by
    rw [calculateEloChange, hexp, goRound]
    rw [if_pos (by norm_num)]
    have hf : ⌊-(32 * ((0 : ℝ) - 1 / 2)) + 1 / 2⌋ = (16 : ℤ) := by
      rw [Int.floor_eq_iff]
      constructor <;> norm_num
    rw [hf]
  have hd : calculateEloChange r r (1 / 2) = 0 := by
    rw [calculateEloChange, hexp, goRound]
    rw [if_neg (by norm_num)]
    rw [Int.floor_eq_iff]
    constructor <;> norm_num
  exact ⟨h1, h0, by simp [ratingDeltas, h1, h0], by simp [ratingDeltas, h1, h0],
    by simp only [ratingDeltas]; rw [hd], by rw [h1, h0]; norm_num⟩

/-- C8: updateClock on an existing session unconditionally overwrites the
stored remaining time of the given color with the supplied value, with no
validation, leaving the other clock, the games map with its positions, the
turn, the draw flag, the chat log and every other session untouched. -/
theorem updateTime_frame (s : GameService) (gid : String) (c : Color) (t : Rat)
    (st : GameState) (hst : lookupKV s.gameStates gid = some st) :
    (GameService.updateTime s gid c t =
      .ok { s with gameStates := setKV s.gameStates gid (GameService.setTime st c t) }) ∧
    ((GameService.setTime st c t).whitePlayer = st.whitePlayer ∧
     (GameService.setTime st c t).blackPlayer = st.blackPlayer ∧
     (GameService.setTime st c t).currentTurn = st.currentTurn ∧
     (GameService.setTime st c t).drawOffered = st.drawOffered ∧
     (GameService.setTime st c t).chatHistory = st.chatHistory) ∧
    ((GameService.setTime st Color.white t).whiteTimeLeft = t ∧
     (GameService.setTime st Color.white t).blackTimeLeft = st.blackTimeLeft) ∧
    ((GameService.setTime st Color.black t).blackTimeLeft = t ∧
     (GameService.setTime st Color.black t).whiteTimeLeft = st.whiteTimeLeft) ∧
    (∀ gid₂, gid₂ ≠ gid →
      lookupKV (setKV s.gameStates gid (GameService.setTime st c t)) gid₂ =
        lookupKV s.gameStates gid₂) := by
  refine ⟨?_, ?_, ⟨rfl, rfl⟩, ⟨rfl, rfl⟩, ?_⟩
  · simp [GameService.updateTime, hst]
  · cases c <;> simp [GameService.setTime]
  · exact fun gid₂ h2 => lookupKV_setKV_ne s.gameStates gid gid₂ _ h2

/-- The service after setting the white clock of g1 to 42.5 seconds. -/
def svc0Time : GameService :=
  (GameService.updateTime svc0 "g1" Color.white (85 / 2)).toOption.getD ⟨[], []⟩

/-- Witness for C8: overwriting the white clock of the fresh game g1 with
42.5 succeeds and produces exactly the frame described by the theorem. -/
theorem updateTime_frame_witness :
    GameService.updateTime svc0 "g1" Color.white (85 / 2) = .ok svc0Time ∧
    lookupKV (setKV svc0.gameStates "g1" (GameService.setTime st0 Color.white (85 / 2))) "g2" =
      lookupKV svc0.gameStates "g2" := by
  have h := updateTime_frame svc0 "g1" Color.white (85 / 2) st0 rfl
  exact ⟨h.1, h.2.2.2.2 "g2" (by decide)⟩

/-- The mutexes of the source: the single h.mu of the WebSocketHandler and
the single s.mu of the GameService. There is no per-session lock in the
source. -/
inductive LockId
  | handlerMu
  | serviceMu
deriving DecidableEq, Repr

/-- The GameService operations, tagged with the game id each call
targets. -/
inductive ServiceOp
  | makeMove (gameID : String)
  | resignGame (gameID : String)
  | offerDraw (gameID : String)
  | acceptDraw (gameID : String)
  | declineDraw (gameID : String)
  | updateTime (gameID : String)
  | addChatMessage (gameID : String)
deriving DecidableEq, Repr

/-- The game id a service operation targets. -/
def ServiceOp.target : ServiceOp → String
  | .makeMove g => g
  | .resignGame g => g
  | .offerDraw g => g
  | .acceptDraw g => g
  | .declineDraw g => g
  | .updateTime g => g
  | .addChatMessage g => g

/-- The mutex a service operation acquires on entry: every GameService
method body begins with s.mu.Lock() on the one Mutex field of the one
GameService, independent of the game id the call targets. -/
def ServiceOp.lockAcquired : ServiceOp → LockId
  | _ => .serviceMu

/-- C9 counterexample: operations on the two distinct sessions a and b
acquire the same lock, the single service-wide mutex, refuting the claim
that every operation acquires a lock owned by its own session so that
operations on different sessions never serialize. -/
theorem per_session_locking_counterexample :
    (ServiceOp.makeMove "a").target ≠ (ServiceOp.offerDraw "b").target ∧
    (ServiceOp.makeMove "a").lockAcquired = (ServiceOp.offerDraw "b").lockAcquired :=
  ⟨by decide, rfl⟩

/-- C9 (amended): every GameService operation acquires the one service-wide
mutex regardless of the session it targets, so any two operations, on the
same or on different sessions, serialize on the same lock. -/
theorem all_service_ops_acquire_service_mutex (op₁ op₂ : ServiceOp) :
    op₁.lockAcquired = LockId.serviceMu ∧ op₁.lockAcquired = op₂.lockAcquired := by
  cases op₁ <;> cases op₂ <;> exact ⟨rfl, rfl⟩

/-- C10: the chat path records and broadcasts the authenticated username
bound to the connection at upgrade time as the sender; the decoded payload
contributes only the game id and the message text, so two inbound chat
envelopes that differ only in payload-carried identity text produce
identical chat-log entries and identical broadcasts. -/
theorem chat_sender_is_authenticated (h : Handler) (conn : Nat) (username : String)
    (env : ChatEnvelope) (sess : HSession) (st : GameState)
    (hs : lookupKV h.sessions env.gameID = some sess)
    (hst : lookupKV h.gameService.gameStates env.gameID = some st) :
    (∃ svc' : GameService,
      GameService.addChatMessage h.gameService env.gameID username env.message = .ok svc' ∧
      lookupKV svc'.gameStates env.gameID =
        some ({ st with chatHistory := st.chatHistory ++ [⟨username, env.message⟩] }) ∧
      dispatchChat h conn username env =
        ({ h with gameService := svc' },
         [(sess.white.conn, OutMsg.chat username env.message),
          (sess.black.conn, OutMsg.chat username env.message)])) ∧
    (∀ env₂ : ChatEnvelope, env₂.gameID = env.gameID → env₂.message = env.message →
      dispatchChat h conn username env₂ = dispatchChat h conn username env) := by
  constructor
  · refine ⟨{ h.gameService with gameStates := setKV h.gameService.gameStates env.gameID ({ st with chatHistory := st.chatHistory ++ [⟨username, env.message⟩] }) }, ?_, ?_, ?_⟩
    · simp [GameService.addChatMessage, hst]
    · exact lookupKV_setKV_self _ _ _
    · simp [dispatchChat, handleChat, hs, GameService.addChatMessage, hst]
  · intro env₂ hid hmsg
    simp [dispatchChat, hid, hmsg]

/-- A chat envelope carrying the identity text mallory in its payload. -/
def chatEnvA : ChatEnvelope := ⟨"g1", "hello", "mallory"⟩

/-- The same chat envelope except for the payload identity text. -/
def chatEnvB : ChatEnvelope := ⟨"g1", "hello", "eve"⟩

/-- Witness for C10: on the handler fixture for g1, a chat from the
connection authenticated as alice is logged and broadcast with sender
alice, and the envelope claiming mallory and the one claiming eve produce
identical results. -/
theorem chat_sender_is_authenticated_witness :
    (∃ svc' : GameService,
      GameService.addChatMessage h0.gameService "g1" "alice" "hello" = .ok svc' ∧
      lookupKV svc'.gameStates "g1" =
        some ({ st0 with chatHistory := st0.chatHistory ++ [⟨"alice", "hello"⟩] }) ∧
      dispatchChat h0 1 "alice" chatEnvA =
        ({ h0 with gameService := svc' },
         [(1, OutMsg.chat "alice" "hello"), (2, OutMsg.chat "alice" "hello")])) ∧
    dispatchChat h0 1 "alice" chatEnvB = dispatchChat h0 1 "alice" chatEnvA := by
  have hw := chat_sender_is_authenticated h0 1 "alice" chatEnvA sess0 st0 rfl rfl
  exact ⟨hw.1, hw.2 chatEnvB rfl rfl⟩

end ChessWs
